import Mathlib

/-!
A verification development for the request/response execution core of a
typed Elasticsearch client.  The definitions shallowly embed the Rust
source: the error taxonomy and classification plumbing from
`elastic/src/error.rs`, the response builders from
`elastic/src/client/responses/async.rs`, the client/sender construction
from `elastic/src/client/mod.rs`, and the search request builder from
`elastic/src/client/requests/search.rs`.  Parts of the repository that
live outside those files (the `elastic_reqwest` parse function, the
`RequestParams` internals, the generated `SearchRequest` constructors)
are modelled from the specification and are marked as such.
-/

namespace Elastic

/-- A loosely-typed structured-data tree, standing for `serde_json::Value`:
the intermediate representation the classifier inspects. -/
inductive Json where
  | null
  | bool (b : Bool)
  | num (n : Int)
  | str (s : String)
  | arr (items : List Json)
  | obj (fields : List (String × Json))

/-- Look a key up in the field list of an object. -/
def lookupField : List (String × Json) → String → Option Json
  | [], _ => none
  | (k0, v0) :: rest, k => if k0 = k then some v0 else lookupField rest k

/-- Field access on a tree: `some` only for an object holding the key. -/
def Json.get (j : Json) (k : String) : Option Json :=
  match j with
  | Json.obj fields => lookupField fields k
  | _ => none

/-- Extract a string leaf. -/
def Json.asString : Json → Option String
  | Json.str s => some s
  | _ => none

/-- A structural-decode failure, standing for `serde_json::Error`. -/
structure SerdeError where
  msg : String

/-- Modelled from the spec: the raw response body, a byte payload that the
generic codec either decodes into a tree or rejects as malformed.  The
codec itself (`serde_json`) is an external collaborator, so the body is
represented by its decode outcome. -/
inductive RawBody where
  | wellFormed (tree : Json)
  | malformed (text : String)

/-- Modelled from the spec: the generic structural decode of the payload
boundary (step 2 of the classifier algorithm). -/
def structuralDecode : RawBody → Except SerdeError Json
  | RawBody.wellFormed tree => Except.ok tree
  | RawBody.malformed text => Except.error { msg := text }

/-- Modelled from the spec: `ApiError` (`http::receiver::ApiError`, not
under the sources here) — a structured failure reported by the service,
tagged by a discriminant plus free-form diagnostic fields. -/
inductive ApiError where
  | indexNotFound (index : Option String)
  | documentMissing (index : Option String)
  | parsing (reason : Option String)
  | other (body : Json)

/-- Modelled from the spec: materializing an `ApiError` from the decoded
tree (step 4 of the classifier), dispatching on the error discriminant. -/
def parseApiError (tree : Json) : ApiError :=
  match ((tree.get "error").bind (fun e => e.get "type")).bind Json.asString with
  | some "index_not_found_exception" =>
      ApiError.indexNotFound
        (((tree.get "error").bind (fun e => e.get "index")).bind Json.asString)
  | some "document_missing_exception" =>
      ApiError.documentMissing
        (((tree.get "error").bind (fun e => e.get "index")).bind Json.asString)
  | some "parsing_exception" =>
      ApiError.parsing
        (((tree.get "error").bind (fun e => e.get "reason")).bind Json.asString)
  | _ => ApiError.other tree

/-- Modelled from the spec: `http::receiver::ResponseError` — a response
either carries a structured API error or failed to parse. -/
inductive ResponseError where
  | Api (err : ApiError)
  | Parse (err : SerdeError)

/-- `error.rs`: `MaybeApiError<E>` — either an API error or some other error. -/
inductive MaybeApiError (E : Type) where
  | Api (err : ApiError)
  | Other (err : E)

/-- `error.rs` lines 202-209: `Into<MaybeApiError<ResponseError>>` —
`ResponseError::Api` becomes `MaybeApiError::Api`, anything else `Other`. -/
def ResponseError.intoMaybeApiError : ResponseError → MaybeApiError ResponseError
  | ResponseError.Api err => MaybeApiError.Api err
  | err => MaybeApiError.Other err

/-- `error.rs` lines 224-228: `Into<MaybeApiError<serde_json::Error>>` —
a structural-decode failure is always `Other`, never an API error. -/
def SerdeError.intoMaybeApiError (e : SerdeError) : MaybeApiError SerdeError :=
  MaybeApiError.Other e

/-- `error.rs` `inner::ErrorKind`: build, request, or response-with-status. -/
inductive ErrorKind where
  | Build
  | Request
  | Response (status : Nat)

/-- The underlying cause chained below a `ClientError`. -/
inductive ErrorCause where
  | response (e : ResponseError)
  | json (e : SerdeError)

/-- `error.rs`: `ClientError` — an error kind together with its cause chain. -/
structure ClientError where
  kind : ErrorKind
  cause : ErrorCause

/-- `error.rs`: the unified `Error` surfaced to callers. -/
inductive Error where
  | Api (err : ApiError)
  | Client (err : ClientError)

/-- `error.rs` lines 166-177: `response(status, err)` — convert a failure
into `Error::Api` when `err` converts to `MaybeApiError::Api`, otherwise
into `Error::Client` carrying `ErrorKind::Response(status)`. -/
def error.response {E : Type} (intoM : E → MaybeApiError E) (wrap : E → ErrorCause)
    (status : Nat) (err : E) : Error :=
  match intoM err with
  | MaybeApiError.Api e => Error.Api e
  | MaybeApiError.Other e => Error.Client { kind := ErrorKind.Response status, cause := wrap e }

/-- Modelled from the spec: the classification contract a concrete
response type `T` declares — a predicate over the decoded tree deciding
success-for-`T`, and the materialization of `T` from the tree
(`IsOk + DeserializeOwned`, declared outside these sources). -/
structure IsOkImpl (T : Type) where
  is_ok : Json → Bool
  deserialize : Json → Option T

/-- Modelled from the spec: steps 4-5 of the classifier on an already
decoded tree — ask `T`'s predicate, then materialize `T` (failure there
is a parse error) or materialize an `ApiError`. -/
def parseTree {T : Type} (impl : IsOkImpl T) (tree : Json) : Except ResponseError T :=
  if impl.is_ok tree then
    match impl.deserialize tree with
    | some t => Except.ok t
    | none => Except.error (ResponseError.Parse { msg := "error deserializing response type" })
  else
    Except.error (ResponseError.Api (parseApiError tree))

/-- The transport-level response: status, headers, and a body consumed once. -/
structure RawResponse where
  status : Nat
  headers : List (String × String)
  body : RawBody

/-- The transport-agnostic classification pipeline shared by both
response builders: decode the body (a failure goes through the
`serde_json::Error` conversion of `error.rs`), then classify the tree (a
failure goes through the `ResponseError` conversion of `error.rs`). -/
def intoResponseShared {T : Type} (impl : IsOkImpl T) (res : RawResponse) : Except Error T :=
  match structuralDecode res.body with
  | Except.error e =>
      Except.error (error.response SerdeError.intoMaybeApiError ErrorCause.json res.status e)
  | Except.ok tree =>
      match parseTree impl tree with
      | Except.ok t => Except.ok t
      | Except.error e =>
          Except.error (error.response ResponseError.intoMaybeApiError ErrorCause.response res.status e)

/-- `async.rs` line 17: the builder wrapping the completed raw response. -/
structure AsyncResponseBuilder where
  raw : RawResponse

/-- `async.rs` lines 101-102: a raw HTTP response handed over by `into_raw`. -/
structure AsyncHttpResponse where
  raw : RawResponse

/-- `async.rs` lines 23-26: `status()` borrows the builder and reads the code. -/
def AsyncResponseBuilder.status (b : AsyncResponseBuilder) : Nat :=
  b.raw.status

/-- `async.rs` lines 33-35: `into_raw` consumes the builder into the raw response. -/
def AsyncResponseBuilder.into_raw (b : AsyncResponseBuilder) : AsyncHttpResponse :=
  { raw := b.raw }

/-- `async.rs` lines 92-98: `into_response` consumes the builder and runs
`parse().from_response(self.0).map_err(Into::into)` — the shared
classification pipeline on the wrapped raw response. -/
def AsyncResponseBuilder.into_response {T : Type} (b : AsyncResponseBuilder)
    (impl : IsOkImpl T) : Except Error T :=
  intoResponseShared impl b.raw

/-- Modelled from the spec: the blocking response builder (its source file
is not among these sources); per the design notes it shares the
transport-agnostic classification pipeline with the non-blocking one. -/
structure SyncResponseBuilder where
  raw : RawResponse

/-- Modelled from the spec: the blocking `into_response`, delegating to
the shared classification pipeline on the buffered body. -/
def SyncResponseBuilder.into_response {T : Type} (b : SyncResponseBuilder)
    (impl : IsOkImpl T) : Except Error T :=
  intoResponseShared impl b.raw

/-- An abstract reactor handle (`tokio_core::reactor::Handle`). -/
structure Handle where
  id : Nat

/-- An abstract non-blocking transport client (`reqwest` async client). -/
structure AsyncHttpClient where
  handle : Handle

/-- Constructing the transport client from a reactor handle. -/
def AsyncHttpClient.new (handle : Handle) : AsyncHttpClient :=
  { handle := handle }

/-- A bounded worker pool (`futures_cpupool::CpuPool`), sized at creation. -/
structure CpuPool where
  size : Nat

/-- `CpuPool::new(size)`. -/
def CpuPool.new (size : Nat) : CpuPool :=
  { size := size }

/-- `mod.rs` lines 588-592: the non-blocking sender — transport client
plus an optional deserialization worker pool. -/
structure AsyncSender where
  http : AsyncHttpClient
  de_pool : Option CpuPool

/-- Which thread of control CPU-bound deserialization runs on. -/
inductive ExecThread where
  | inline
  | workerPool
deriving DecidableEq

/-- The outcome of the non-blocking parse together with where it ran. -/
structure AsyncParse (T : Type) where
  result : Except Error T
  ranOn : ExecThread

/-- The non-blocking parse as observed against a sender configuration.
`async.rs` lines 92-98 build the parse future directly from the wrapped
response — the builder holds no reference to the sender, so the sender's
`de_pool` is never consulted and the work runs inline on the thread that
completed the read. -/
def asyncParseWith {T : Type} (sender : AsyncSender) (impl : IsOkImpl T)
    (b : AsyncResponseBuilder) : AsyncParse T :=
  { result := b.into_response impl, ranOn := ExecThread.inline }

/-- Connection parameters (`elastic_reqwest::RequestParams`, not among
these sources): base url, default headers, default url query parameters.
Modelled from the spec data model. -/
structure RequestParams where
  base_url : String
  headers : List (String × String)
  url_params : List (String × String)

/-- `RequestParams::default()`: requests go to `localhost:9200`. -/
def RequestParams.default : RequestParams :=
  { base_url := "http://localhost:9200", headers := [], url_params := [] }

/-- Number of entries carrying a given key. -/
def keyCount : List (String × String) → String → Nat
  | [], _ => 0
  | (k0, _) :: rest, k => (if k0 = k then 1 else 0) + keyCount rest k

/-- Value of the first entry carrying a given key. -/
def lookupKey : List (String × String) → String → Option String
  | [], _ => none
  | (k0, v0) :: rest, k => if k0 = k then some v0 else lookupKey rest k

/-- Every key occurs at most once. -/
def nodupKeys : List (String × String) → Bool
  | [] => true
  | (k0, _) :: rest => keyCount rest k0 == 0 && nodupKeys rest

/-- Modelled from the spec: inserting a url parameter into the mapping —
an entry sharing the key is replaced in place, otherwise the entry is
appended. -/
def upsert : List (String × String) → String → String → List (String × String)
  | [], k, v => [(k, v)]
  | (k0, v0) :: rest, k, v =>
      if k0 = k then (k, v) :: rest else (k0, v0) :: upsert rest k v

/-- Modelled from the spec: `RequestParams::url_param(key, value)` sets a
default url query parameter, request-local value winning over an
existing entry for the same key. -/
def RequestParams.url_param (p : RequestParams) (k v : String) : RequestParams :=
  { p with url_params := upsert p.url_params k v }

/-- Merging request-local overrides over the client-wide parameters: each
override is applied with `url_param` to a private copy. -/
def mergeParams (c : RequestParams) (os : List (String × String)) : RequestParams :=
  os.foldl (fun p kv => p.url_param kv.1 kv.2) c

/-- Forming the per-request parameters: the shared client-wide instance
is returned untouched alongside the private merged copy. -/
def applyRequestOverrides (c : RequestParams) (os : List (String × String)) :
    RequestParams × RequestParams :=
  (c, mergeParams c os)

/-- The resolved url query string, one `key=value` segment per entry. -/
def querySegments (p : RequestParams) : List String :=
  p.url_params.map (fun kv => kv.1 ++ "=" ++ kv.2)

/-- An abstract blocking transport client (`reqwest` sync client). -/
structure SyncHttpClient where
  id : Nat

/-- `mod.rs` lines 474-477: the blocking client builder. -/
structure SyncClientBuilder where
  http : Option SyncHttpClient
  params : RequestParams

/-- `mod.rs` lines 489-494: `SyncClientBuilder::new()`. -/
def SyncClientBuilder.new : SyncClientBuilder :=
  { http := none, params := RequestParams.default }

/-- `mod.rs` lines 554-560: `SyncClientBuilder::params(builder)` replaces
the stored parameters with the transform's result. -/
def SyncClientBuilder.withParams (b : SyncClientBuilder)
    (f : RequestParams → RequestParams) : SyncClientBuilder :=
  { b with params := f b.params }

/-- `mod.rs` lines 686-690: the client pairing a sender with parameters
(here at the non-blocking sender). -/
structure AsyncClient where
  sender : AsyncSender
  params : RequestParams

/-- `mod.rs` lines 609-613: the non-blocking client builder. -/
structure AsyncClientBuilder where
  http : Option AsyncHttpClient
  de_pool : Option CpuPool
  params : RequestParams

/-- `mod.rs` lines 616-624: `AsyncClientBuilder::new()` implicitly creates
a `CpuPool::new(4)` as the default deserialization pool. -/
def AsyncClientBuilder.new : AsyncClientBuilder :=
  let de_pool := CpuPool.new 4
  { http := none, de_pool := some de_pool, params := RequestParams.default }

/-- `mod.rs` lines 642-646: the `de_pool` builder method replaces the pool. -/
def AsyncClientBuilder.withDePool (b : AsyncClientBuilder) (de_pool : Option CpuPool) :
    AsyncClientBuilder :=
  { b with de_pool := de_pool }

/-- `mod.rs` lines 654-664: `AsyncClientBuilder::build(handle)` — an
explicit transport client wins, otherwise one is constructed from the
handle; the sender inherits the builder's pool. -/
def AsyncClientBuilder.build (b : AsyncClientBuilder) (handle : Handle) : AsyncClient :=
  let http := b.http.getD (AsyncHttpClient.new handle)
  { sender := { http := http, de_pool := b.de_pool }, params := b.params }

/-- `mod.rs` lines 762-772: `Client::<AsyncSender>::new(handle, params)`
constructs the sender directly with no deserialization pool. -/
def Client.asyncNew (handle : Handle) (params : RequestParams) : AsyncClient :=
  { sender := { http := AsyncHttpClient.new handle, de_pool := none }, params := params }

/-- Modelled from the spec: the generated `SearchRequest` endpoint type —
a fixed url template plus the body (the generated constructors are not
among these sources; the url shapes are pinned by the tests in
`search.rs` lines 174-212). -/
structure SearchRequest (TBody : Type) where
  url : String
  body : TBody

/-- Modelled from the spec: `SearchRequest::for_index(index, body)`
resolves to `/{index}/_search`. -/
def SearchRequest.for_index {TBody : Type} (index : String) (body : TBody) :
    SearchRequest TBody :=
  { url := "/" ++ index ++ "/_search", body := body }

/-- Modelled from the spec: `SearchRequest::for_index_ty(index, ty, body)`
resolves to `/{index}/{ty}/_search`. -/
def SearchRequest.for_index_ty {TBody : Type} (index ty : String) (body : TBody) :
    SearchRequest TBody :=
  { url := "/" ++ index ++ "/" ++ ty ++ "/_search", body := body }

/-- `search.rs` lines 11-16: the search request builder state. -/
structure SearchRequestBuilder (TBody : Type) where
  index : Option String
  ty : Option String
  body : TBody

/-- `search.rs` lines 97-104: `into_request` defaults a missing index to
`_all` and dispatches on whether a type is set. -/
def SearchRequestBuilder.into_request {TBody : Type} (s : SearchRequestBuilder TBody) :
    SearchRequest TBody :=
  let index := s.index.getD "_all"
  match s.ty with
  | some ty => SearchRequest.for_index_ty index ty s.body
  | none => SearchRequest.for_index index s.body

/-- The operations a response builder offers. -/
inductive BuilderOp where
  | statusOp
  | intoRawOp
  | intoResponseOp
deriving DecidableEq

/-- What each operation returns. -/
inductive BuilderOutput (T : Type) where
  | statusCode (code : Nat)
  | rawResponse (r : AsyncHttpResponse)
  | parsed (r : Except Error T)

/-- The ownership state of a response builder: `status()` borrows the
builder, while `into_raw`/`into_response` take it by value, so after
either of those the builder no longer exists. -/
inductive BuilderState where
  | live (raw : RawResponse)
  | consumed

/-- The move-semantics discipline of `async.rs` as a step relation:
`status` leaves the builder live, `into_raw`/`into_response` consume it,
and no operation applies to a consumed (moved-out) builder. -/
def stepBuilder {T : Type} (impl : IsOkImpl T) :
    BuilderState → BuilderOp → Option (BuilderState × BuilderOutput T)
  | BuilderState.live r, BuilderOp.statusOp =>
      some (BuilderState.live r, BuilderOutput.statusCode (AsyncResponseBuilder.status { raw := r }))
  | BuilderState.live r, BuilderOp.intoRawOp =>
      some (BuilderState.consumed, BuilderOutput.rawResponse (AsyncResponseBuilder.into_raw { raw := r }))
  | BuilderState.live r, BuilderOp.intoResponseOp =>
      some (BuilderState.consumed,
        BuilderOutput.parsed (AsyncResponseBuilder.into_response { raw := r } impl))
  | BuilderState.consumed, _ => none

/-- Running `status()` a number of times, collecting the returned codes. -/
def statusCalls {T : Type} (impl : IsOkImpl T) :
    Nat → BuilderState → Option (BuilderState × List Nat)
  | 0, s => some (s, [])
  | n + 1, s =>
      match stepBuilder impl s BuilderOp.statusOp with
      | some (s1, BuilderOutput.statusCode c) =>
          match statusCalls impl n s1 with
          | some (s2, cs) => some (s2, c :: cs)
          | none => none
      | _ => none

/-- Directly decoding a body as `T`: the structural decode followed by
`T`'s materialization, with no classification involved. -/
def directDecode {T : Type} (impl : IsOkImpl T) (body : RawBody) : Option T :=
  match structuralDecode body with
  | Except.ok tree => impl.deserialize tree
  | Except.error _ => none

/-- A classification contract at `T := Json`: success is the absence of a
top-level error object, and the tree materializes as itself. -/
def jsonIdImpl : IsOkImpl Json :=
  { is_ok := fun j => (j.get "error").isNone, deserialize := fun j => some j }

/-- A failure-shaped tree: a top-level error object tagged index-not-found. -/
def failTree : Json :=
  Json.obj [("error", Json.obj
    [("type", Json.str "index_not_found_exception"), ("index", Json.str "myindex")])]

/-- A success-shaped tree for a get-style response. -/
def okTree : Json :=
  Json.obj [("found", Json.bool true)]

/-- A 2xx response carrying a failure-shaped payload. -/
def sampleFailureResponse : RawResponse :=
  { status := 200, headers := [], body := RawBody.wellFormed failTree }

/-- A non-2xx response carrying a success-shaped payload. -/
def sampleOkResponse : RawResponse :=
  { status := 404, headers := [], body := RawBody.wellFormed okTree }

/-- A 2xx response carrying a success-shaped payload. -/
def sample2xxResponse : RawResponse :=
  { status := 200, headers := [], body := RawBody.wellFormed okTree }

/-- A 503 response whose body is plain text, not well-formed data. -/
def sampleMalformedResponse : RawResponse :=
  { status := 503, headers := [], body := RawBody.malformed "Service Unavailable" }

/-- A non-blocking sender configured with a worker pool. -/
def samplePoolSender : AsyncSender :=
  { http := AsyncHttpClient.new { id := 0 }, de_pool := some (CpuPool.new 4) }

/-- Client-wide parameters carrying two default url parameters. -/
def sampleClientParams : RequestParams :=
  { base_url := "http://localhost:9200", headers := [],
    url_params := [("pretty", "true"), ("refresh", "false")] }

/-- A request-local override of one of the client-wide url parameters. -/
def sampleOverrides : List (String × String) :=
  [("pretty", "false")]

/-- Claim C1: for every raw response whose body decodes into the
structured-failure shape, `into_response` yields `Err(Error::Api(_))`
matching the decoded shape regardless of the HTTP status code — a 2xx
status with a failure-shaped payload still produces `Error::Api` — and a
response whose payload the predicate calls success is still treated as
success regardless of status: the payload is authoritative. -/
theorem payload_authoritative_over_status {T : Type} (impl : IsOkImpl T)
    (b : AsyncResponseBuilder) (tree : Json)
    (hdec : structuralDecode b.raw.body = Except.ok tree) :
    (impl.is_ok tree = false →
      b.into_response impl = Except.error (Error.Api (parseApiError tree))) ∧
    (∀ t : T, impl.is_ok tree = true → impl.deserialize tree = some t →
      b.into_response impl = Except.ok t) := by
  constructor
  · intro hko
    simp [AsyncResponseBuilder.into_response, intoResponseShared, hdec, parseTree, hko,
      error.response, ResponseError.intoMaybeApiError]
  · intro t hok hde
    simp [AsyncResponseBuilder.into_response, intoResponseShared, hdec, parseTree, hok, hde]

/-- Witness for C1: a 200 response with a failure-shaped body classifies
as the matching `Error::Api`, and a 404 response with a success-shaped
body classifies as success. -/
theorem payload_authoritative_over_status_witness :
    structuralDecode sampleFailureResponse.body = Except.ok failTree ∧
    jsonIdImpl.is_ok failTree = false ∧
    (AsyncResponseBuilder.mk sampleFailureResponse).into_response jsonIdImpl
      = Except.error (Error.Api (parseApiError failTree)) ∧
    (AsyncResponseBuilder.mk sampleOkResponse).into_response jsonIdImpl
      = Except.ok okTree :=
  ⟨rfl, rfl,
    (payload_authoritative_over_status jsonIdImpl
      (AsyncResponseBuilder.mk sampleFailureResponse) failTree rfl).1 rfl,
    (payload_authoritative_over_status jsonIdImpl
      (AsyncResponseBuilder.mk sampleOkResponse) okTree rfl).2 okTree rfl rfl⟩

/-- Claim C2: for every raw response whose body fails generic structural
decoding, `into_response` yields `Err(Error::Client(Response(status)))`
carrying the HTTP status, and never yields `Err(Error::Api(_))`, for any
status code. -/
theorem undecodable_body_is_client_error {T : Type} (impl : IsOkImpl T)
    (b : AsyncResponseBuilder) (e : SerdeError)
    (hdec : structuralDecode b.raw.body = Except.error e) :
    b.into_response impl
      = Except.error (Error.Client
          { kind := ErrorKind.Response b.raw.status, cause := ErrorCause.json e }) ∧
    (∀ a : ApiError, b.into_response impl ≠ Except.error (Error.Api a)) := by
  have h1 : b.into_response impl
      = Except.error (Error.Client
          { kind := ErrorKind.Response b.raw.status, cause := ErrorCause.json e }) := by
    simp [AsyncResponseBuilder.into_response, intoResponseShared, hdec,
      error.response, SerdeError.intoMaybeApiError]
  refine ⟨h1, ?_⟩
  intro a hcontra
  rw [h1] at hcontra
  simp at hcontra

/-- Witness for C2: a 503 response whose body is plain text classifies as
`Error::Client(Response(503))` wrapping the parse failure, and is not an
API error. -/
theorem undecodable_body_is_client_error_witness :
    structuralDecode sampleMalformedResponse.body
      = Except.error { msg := "Service Unavailable" } ∧
    (AsyncResponseBuilder.mk sampleMalformedResponse).into_response jsonIdImpl
      = Except.error (Error.Client
          { kind := ErrorKind.Response 503,
            cause := ErrorCause.json { msg := "Service Unavailable" } }) ∧
    (AsyncResponseBuilder.mk sampleMalformedResponse).into_response jsonIdImpl
      ≠ Except.error (Error.Api (ApiError.other Json.null)) :=
  ⟨rfl,
    (undecodable_body_is_client_error jsonIdImpl
      (AsyncResponseBuilder.mk sampleMalformedResponse) { msg := "Service Unavailable" } rfl).1,
    (undecodable_body_is_client_error jsonIdImpl
      (AsyncResponseBuilder.mk sampleMalformedResponse) { msg := "Service Unavailable" } rfl).2
      (ApiError.other Json.null)⟩

/-- Claim C3: for every raw response with a 2xx status whose body
deserializes successfully as `T` (with the `IsOk` predicate signalling
success), `into_response` yields `Ok(t)` where `t` equals the result of
directly decoding that body as `T`. -/
theorem success_equals_direct_decode {T : Type} (impl : IsOkImpl T)
    (b : AsyncResponseBuilder) (tree : Json) (t : T)
    (hstatus : 200 ≤ b.raw.status ∧ b.raw.status < 300)
    (hdec : structuralDecode b.raw.body = Except.ok tree)
    (hok : impl.is_ok tree = true)
    (hde : impl.deserialize tree = some t) :
    b.into_response impl = Except.ok t ∧
    directDecode impl b.raw.body = some t := by
  refine ⟨?_, ?_⟩
  · simp [AsyncResponseBuilder.into_response, intoResponseShared, hdec, parseTree, hok, hde]
  · simp [directDecode, hdec, hde]

/-- Witness for C3: a 200 response with a success-shaped body parses to
exactly the directly decoded tree. -/
theorem success_equals_direct_decode_witness :
    (200 ≤ sample2xxResponse.status ∧ sample2xxResponse.status < 300) ∧
    (AsyncResponseBuilder.mk sample2xxResponse).into_response jsonIdImpl
      = Except.ok okTree ∧
    directDecode jsonIdImpl sample2xxResponse.body = some okTree := by
  refine ⟨by constructor <;> decide, ?_, ?_⟩
  · exact (success_equals_direct_decode jsonIdImpl
      (AsyncResponseBuilder.mk sample2xxResponse) okTree okTree
      (by constructor <;> decide) rfl rfl rfl).1
  · exact (success_equals_direct_decode jsonIdImpl
      (AsyncResponseBuilder.mk sample2xxResponse) okTree okTree
      (by constructor <;> decide) rfl rfl rfl).2

/-- Claim C4: `into_raw` and `into_response` consume the builder exactly
once — any step performing either operation leaves the builder consumed,
and no further operation applies to a consumed builder. -/
theorem body_single_consumption {T : Type} (impl : IsOkImpl T)
    (s s' : BuilderState) (op : BuilderOp) (out : BuilderOutput T)
    (hop : op = BuilderOp.intoRawOp ∨ op = BuilderOp.intoResponseOp)
    (hstep : stepBuilder impl s op = some (s', out)) :
    s' = BuilderState.consumed ∧
    ∀ op2 : BuilderOp, stepBuilder impl BuilderState.consumed op2 = none := by
  constructor
  · cases s with
    | live r =>
        rcases hop with h | h <;> subst h <;>
          simp [stepBuilder] at hstep <;> exact hstep.1.symm
    | consumed =>
        cases op <;> simp [stepBuilder] at hstep
  · intro op2
    cases op2 <;> rfl

/-- Witness for C4: consuming a live builder with `into_raw` leaves it
consumed, and `into_response` on the consumed builder is impossible. -/
theorem body_single_consumption_witness :
    stepBuilder jsonIdImpl (BuilderState.live sampleMalformedResponse) BuilderOp.intoRawOp
      = some (BuilderState.consumed,
          BuilderOutput.rawResponse { raw := sampleMalformedResponse }) ∧
    stepBuilder jsonIdImpl BuilderState.consumed BuilderOp.intoResponseOp = none :=
  ⟨rfl,
    (body_single_consumption jsonIdImpl (BuilderState.live sampleMalformedResponse)
      BuilderState.consumed BuilderOp.intoRawOp
      (BuilderOutput.rawResponse { raw := sampleMalformedResponse })
      (Or.inl rfl) rfl).2 BuilderOp.intoResponseOp⟩

/-- Claim C5: the blocking and non-blocking response builders have
identical classification semantics — for every pair of equal raw
responses (same status, headers and body) and every sender
configuration, the non-blocking parse produces the same `Result` as the
blocking `into_response`. -/
theorem sync_async_classification_agree {T : Type} (sender : AsyncSender)
    (impl : IsOkImpl T) (raw : RawResponse) :
    (asyncParseWith sender impl (AsyncResponseBuilder.mk raw)).result
      = (SyncResponseBuilder.mk raw).into_response impl :=
  rfl

/-- Counterexample for C6: with a worker pool configured on the sender,
the deserialization work of `into_response` still does not run on that
pool — the parse runs inline, refuting the claimed offloading. -/
theorem pool_offload_counterexample :
    samplePoolSender.de_pool = some (CpuPool.new 4) ∧
    (asyncParseWith samplePoolSender jsonIdImpl
        (AsyncResponseBuilder.mk sample2xxResponse)).ranOn
      ≠ ExecThread.workerPool :=
  ⟨rfl, by decide⟩

/-- Claim C6 as amended: the deserialization work of `into_response`
always runs inline on the thread that completes the read, regardless of
whether a worker pool is configured on the sender, and its result never
depends on the sender's pool. -/
theorem parsing_always_inline {T : Type} (sender : AsyncSender) (impl : IsOkImpl T)
    (b : AsyncResponseBuilder) :
    (asyncParseWith sender impl b).ranOn = ExecThread.inline ∧
    (asyncParseWith sender impl b).result = b.into_response impl :=
  ⟨rfl, rfl⟩

/-- Claim C8: calling `status()` any number of times on a live builder
returns the same status code each time and leaves the builder live, so
`into_raw` and `into_response` remain callable with unchanged behaviour. -/
theorem status_idempotent_nonconsuming {T : Type} (impl : IsOkImpl T)
    (r : RawResponse) (n : Nat) :
    statusCalls impl n (BuilderState.live r)
      = some (BuilderState.live r, List.replicate n r.status) ∧
    stepBuilder impl (BuilderState.live r) BuilderOp.intoRawOp
      = some (BuilderState.consumed, BuilderOutput.rawResponse { raw := r }) ∧
    stepBuilder impl (BuilderState.live r) BuilderOp.intoResponseOp
      = some (BuilderState.consumed, BuilderOutput.parsed (intoResponseShared impl r)) := by
  refine ⟨?_, rfl, rfl⟩
  induction n with
  | zero => rfl
  | succ n ih =>
      simp [statusCalls, stepBuilder, AsyncResponseBuilder.status, ih, List.replicate_succ]

/-- Claim C9: `AsyncClientBuilder::new()` implicitly creates a
`CpuPool::new(4)` that becomes the deserialization pool of any client
built from it unless replaced via `de_pool`, while
`Client::<AsyncSender>::new` yields a sender with no pool. -/
theorem default_worker_pool (handle : Handle) (params : RequestParams)
    (p : Option CpuPool) :
    ((AsyncClientBuilder.new).build handle).sender.de_pool = some (CpuPool.new 4) ∧
    (((AsyncClientBuilder.new).withDePool p).build handle).sender.de_pool = p ∧
    (Client.asyncNew handle params).sender.de_pool = none :=
  ⟨rfl, rfl, rfl⟩

/-- Claim C10: `into_request` resolves a missing index to `_all` — the
url is `/_all/_search` with neither index nor type, `/i/_search` with
index `i` only, `/i/t/_search` with index `i` and type `t` (and
`/_all/t/_search` with type only) — and the body is carried into the
request unchanged. -/
theorem search_into_request {TBody : Type} (i t : String) (body : TBody) :
    (SearchRequestBuilder.mk none none body).into_request
      = { url := "/_all/_search", body := body } ∧
    (SearchRequestBuilder.mk (some i) none body).into_request
      = { url := "/" ++ i ++ "/_search", body := body } ∧
    (SearchRequestBuilder.mk (some i) (some t) body).into_request
      = { url := "/" ++ i ++ "/" ++ t ++ "/_search", body := body } ∧
    (SearchRequestBuilder.mk none (some t) body).into_request
      = { url := "/_all/" ++ t ++ "/_search", body := body } :=
  ⟨rfl, rfl, rfl, rfl⟩

theorem lookupKey_upsert_self (l : List (String × String)) (k v : String) :
    lookupKey (upsert l k v) k = some v := by
  induction l with
  | nil => simp [upsert, lookupKey]
  | cons kv0 rest ih =>
      obtain ⟨k0, v0⟩ := kv0
      by_cases hk : k0 = k
      · simp [upsert, lookupKey, hk]
      · simp [upsert, lookupKey, hk, ih]

theorem lookupKey_upsert_other (l : List (String × String)) (k v k' : String)
    (h : k' ≠ k) : lookupKey (upsert l k v) k' = lookupKey l k' := by
  induction l with
  | nil => simp [upsert, lookupKey, Ne.symm h]
  | cons kv0 rest ih =>
      obtain ⟨k0, v0⟩ := kv0
      by_cases hk : k0 = k
      · subst hk
        simp [upsert, lookupKey, Ne.symm h]
      · simp [upsert, lookupKey, hk, ih]

theorem keyCount_upsert_self (l : List (String × String)) (k v : String)
    (h : keyCount l k ≤ 1) : keyCount (upsert l k v) k = 1 := by
  induction l with
  | nil => simp [upsert, keyCount]
  | cons kv0 rest ih =>
      obtain ⟨k0, v0⟩ := kv0
      by_cases hk : k0 = k
      · subst hk
        simp [upsert, keyCount] at h ⊢
        omega
      · simp [upsert, keyCount, hk] at h ⊢
        exact ih h

theorem keyCount_upsert_other (l : List (String × String)) (k v k' : String)
    (h : k' ≠ k) : keyCount (upsert l k v) k' = keyCount l k' := by
  induction l with
  | nil => simp [upsert, keyCount, Ne.symm h]
  | cons kv0 rest ih =>
      obtain ⟨k0, v0⟩ := kv0
      by_cases hk : k0 = k
      · subst hk
        simp [upsert, keyCount, Ne.symm h]
      · simp [upsert, keyCount, hk, ih]

theorem nodupKeys_le_one (l : List (String × String)) (h : nodupKeys l = true)
    (k : String) : keyCount l k ≤ 1 := by
  induction l with
  | nil => simp [keyCount]
  | cons kv0 rest ih =>
      obtain ⟨k0, v0⟩ := kv0
      simp [nodupKeys, Bool.and_eq_true, beq_iff_eq] at h
      by_cases hk : k0 = k
      · subst hk
        have h0 := h.1
        simp [keyCount]
        omega
      · simp [keyCount, hk]
        exact ih h.2

theorem mergeParams_cons (c : RequestParams) (kv : String × String)
    (os : List (String × String)) :
    mergeParams c (kv :: os) = mergeParams (c.url_param kv.1 kv.2) os :=
  rfl

theorem mergeParams_zero (os : List (String × String)) (k : String)
    (c : RequestParams) (h : keyCount os k = 0) :
    lookupKey (mergeParams c os).url_params k = lookupKey c.url_params k ∧
    keyCount (mergeParams c os).url_params k = keyCount c.url_params k := by
  revert h
  induction os generalizing c with
  | nil => intro _; exact ⟨rfl, rfl⟩
  | cons kv0 rest ih =>
      intro h
      obtain ⟨k0, v0⟩ := kv0
      have hk : k0 ≠ k := by
        intro he
        simp [keyCount, he] at h
      have hr : keyCount rest k = 0 := by
        simp [keyCount, hk] at h
        exact h
      obtain ⟨hl, hc⟩ := ih (c.url_param k0 v0) hr
      rw [mergeParams_cons]
      refine ⟨?_, ?_⟩
      · rw [hl]
        exact lookupKey_upsert_other c.url_params k0 v0 k (Ne.symm hk)
      · rw [hc]
        exact keyCount_upsert_other c.url_params k0 v0 k (Ne.symm hk)

theorem lookupKey_mergeParams_wins (os : List (String × String)) (k v : String)
    (c : RequestParams) (hnd : nodupKeys os = true) (hmem : (k, v) ∈ os) :
    lookupKey (mergeParams c os).url_params k = some v := by
  revert hnd hmem
  induction os generalizing c with
  | nil => intro _ hmem; simp at hmem
  | cons kv0 rest ih =>
      intro hnd hmem
      obtain ⟨k0, v0⟩ := kv0
      simp [nodupKeys, Bool.and_eq_true, beq_iff_eq] at hnd
      rcases List.mem_cons.mp hmem with heq | hmem2
      · obtain ⟨hk, hv⟩ := Prod.mk.injEq .. ▸ heq
        subst hk
        subst hv
        rw [mergeParams_cons]
        rw [(mergeParams_zero rest k (c.url_param k v) hnd.1).1]
        exact lookupKey_upsert_self c.url_params k v
      · rw [mergeParams_cons]
        exact ih (c.url_param k0 v0) hnd.2 hmem2

theorem keyCount_mergeParams_once (os : List (String × String)) (k : String)
    (c : RequestParams) (hc : keyCount c.url_params k ≤ 1)
    (hos : 1 ≤ keyCount os k) :
    keyCount (mergeParams c os).url_params k = 1 := by
  revert hos
  induction os generalizing c with
  | nil => intro hos; simp [keyCount] at hos
  | cons kv0 rest ih =>
      intro hos
      obtain ⟨k0, v0⟩ := kv0
      rw [mergeParams_cons]
      by_cases hk : k0 = k
      · subst hk
        have h1 : keyCount (c.url_param k0 v0).url_params k0 =
            1 := keyCount_upsert_self c.url_params k0 v0 hc
        by_cases hrest : 1 ≤ keyCount rest k0
        · exact ih (c.url_param k0 v0) (by rw [h1]) hrest
        · have h0 : keyCount rest k0 = 0 := by omega
          rw [(mergeParams_zero rest k0 (c.url_param k0 v0) h0).2, h1]
      · have hos2 : 1 ≤ keyCount rest k := by
          simp [keyCount, hk] at hos
          exact hos
        have hc2 : keyCount (c.url_param k0 v0).url_params k ≤ 1 :=
          (keyCount_upsert_other c.url_params k0 v0 k (Ne.symm hk)).trans_le hc
        exact ih (c.url_param k0 v0) hc2 hos2

/-- Claim C7: merging request-local overrides over the client-wide
parameters keeps every client-wide entry whose key is not overridden,
replaces the value for every shared key (request-local wins), leaves an
overridden url parameter exactly once in the resolved parameter list,
and the shared client-wide instance is handed back unmodified. -/
theorem params_merge_semantics (c : RequestParams) (os : List (String × String)) :
    (applyRequestOverrides c os).1 = c ∧
    (∀ k, keyCount os k = 0 →
      lookupKey (mergeParams c os).url_params k = lookupKey c.url_params k) ∧
    (∀ k v, nodupKeys os = true → (k, v) ∈ os →
      lookupKey (mergeParams c os).url_params k = some v) ∧
    (∀ k, nodupKeys c.url_params = true → 1 ≤ keyCount os k →
      keyCount (mergeParams c os).url_params k = 1) := by
  refine ⟨rfl, ?_, ?_, ?_⟩
  · intro k h
    exact (mergeParams_zero os k c h).1
  · intro k v hnd hmem
    exact lookupKey_mergeParams_wins os k v c hnd hmem
  · intro k hnd hos
    exact keyCount_mergeParams_once os k c (nodupKeys_le_one c.url_params hnd k) hos

/-- Witness for C7: overriding `pretty` keeps the untouched `refresh`
entry, replaces the value of `pretty` with the request-local one, leaves
`pretty` exactly once, and leaves the client-wide instance unchanged. -/
theorem params_merge_semantics_witness :
    (applyRequestOverrides sampleClientParams sampleOverrides).1 = sampleClientParams ∧
    lookupKey (mergeParams sampleClientParams sampleOverrides).url_params "refresh"
      = some "false" ∧
    lookupKey (mergeParams sampleClientParams sampleOverrides).url_params "pretty"
      = some "false" ∧
    keyCount (mergeParams sampleClientParams sampleOverrides).url_params "pretty" = 1 := by
  obtain ⟨h1, h2, h3, h4⟩ := params_merge_semantics sampleClientParams sampleOverrides
  exact ⟨h1, h2 "refresh" (by decide),
    h3 "pretty" "false" (by decide) (by decide),
    h4 "pretty" (by decide) (by decide)⟩

end Elastic
